import Mathlib

/-!
Shallow embedding of the dialect-aware column-type system in
`src/libs/sqlalchemy/types.py`: the expression-type inference
(`_adapt_expression`, `_type_affinity`, `_expression_adaptations`),
the value codecs (`Interval`, `PickleType`, `_Binary` bind/result
processors), the `Variant` wrapper, and the per-dialect resolution
cache (`TypeEngine._dialect_info`).
-/

namespace KittyTypes

/-- Modelled from the spec: the operator vocabulary used by the
expression-adaptation tables.  `sqlalchemy.sql.operators` is not under
`src/`; the tables in `types.py` use `add`, `sub`, `mul`, `div`,
`truediv` and `concat_op`. -/
inductive Op
  | add
  | sub
  | mul
  | div
  | truediv
  | concat
deriving DecidableEq, Repr, Fintype

/-- Modelled from the spec: `operators.is_commutative` is not under
`src/`; among the operators appearing in the adaptation tables, addition
and multiplication are the commutative ones. -/
def isCommutative : Op → Bool
  | .add => true
  | .mul => true
  | _ => false

/-- The logical type classes of `types.py` that participate in
expression-type inference (each value stands for one class of the
source's type hierarchy). -/
inductive LType
  | null
  | integer
  | smallInteger
  | bigInteger
  | numeric
  | float
  | date
  | datetime
  | time
  | interval
  | string
  | text
  | unicode
  | largeBinary
deriving DecidableEq, Repr, Fintype

/-- `TypeEngine._type_affinity`: walk the class's mro and return the
last `TypeEngine` subclass before `TypeEngine` itself; `Interval`
overrides the property to return the `Interval` class. -/
def typeAffinity : LType → LType
  | .null => .null
  | .integer => .integer
  | .smallInteger => .integer
  | .bigInteger => .integer
  | .numeric => .numeric
  | .float => .numeric
  | .date => .date
  | .datetime => .datetime
  | .time => .time
  | .interval => .interval
  | .string => .string
  | .text => .string
  | .unicode => .string
  | .largeBinary => .largeBinary

/-- `Integer._expression_adaptations`. -/
def integerAdaptations : Op → LType → Option LType
  | .add, .date => some .date
  | .add, .integer => some .integer
  | .add, .numeric => some .numeric
  | .mul, .interval => some .interval
  | .mul, .integer => some .integer
  | .mul, .numeric => some .numeric
  | .div, .integer => some .integer
  | .div, .numeric => some .numeric
  | .truediv, .integer => some .integer
  | .truediv, .numeric => some .numeric
  | .sub, .integer => some .integer
  | .sub, .numeric => some .numeric
  | _, _ => none

/-- `Numeric._expression_adaptations`. -/
def numericAdaptations : Op → LType → Option LType
  | .mul, .interval => some .interval
  | .mul, .numeric => some .numeric
  | .mul, .integer => some .numeric
  | .div, .numeric => some .numeric
  | .div, .integer => some .numeric
  | .truediv, .numeric => some .numeric
  | .truediv, .integer => some .numeric
  | .add, .numeric => some .numeric
  | .add, .integer => some .numeric
  | .sub, .numeric => some .numeric
  | .sub, .integer => some .numeric
  | _, _ => none

/-- `Float._expression_adaptations`. -/
def floatAdaptations : Op → LType → Option LType
  | .mul, .interval => some .interval
  | .mul, .numeric => some .float
  | .div, .numeric => some .float
  | .truediv, .numeric => some .float
  | .add, .numeric => some .float
  | .sub, .numeric => some .float
  | _, _ => none

/-- `DateTime._expression_adaptations`. -/
def datetimeAdaptations : Op → LType → Option LType
  | .add, .interval => some .datetime
  | .sub, .interval => some .datetime
  | .sub, .datetime => some .interval
  | _, _ => none

/-- `Date._expression_adaptations`. -/
def dateAdaptations : Op → LType → Option LType
  | .add, .integer => some .date
  | .add, .interval => some .datetime
  | .add, .time => some .datetime
  | .sub, .integer => some .date
  | .sub, .date => some .integer
  | .sub, .interval => some .datetime
  | .sub, .datetime => some .interval
  | _, _ => none

/-- `Time._expression_adaptations`. -/
def timeAdaptations : Op → LType → Option LType
  | .add, .date => some .datetime
  | .add, .interval => some .time
  | .sub, .time => some .interval
  | .sub, .interval => some .time
  | _, _ => none

/-- `Interval._expression_adaptations`. -/
def intervalAdaptations : Op → LType → Option LType
  | .add, .date => some .datetime
  | .add, .interval => some .interval
  | .add, .datetime => some .datetime
  | .add, .time => some .time
  | .sub, .interval => some .interval
  | .mul, .numeric => some .interval
  | .truediv, .numeric => some .interval
  | .div, .numeric => some .interval
  | _, _ => none

/-- The two-level `_expression_adaptations` dictionary of each
`_DateAffinity` type, looked up by operator then by affinity class
(`SmallInteger`/`BigInteger` inherit `Integer`'s table); types with no
table yield no entry. -/
def expressionAdaptations : LType → Op → LType → Option LType
  | .integer, op, k => integerAdaptations op k
  | .smallInteger, op, k => integerAdaptations op k
  | .bigInteger, op, k => integerAdaptations op k
  | .numeric, op, k => numericAdaptations op k
  | .float, op, k => floatAdaptations op k
  | .datetime, op, k => datetimeAdaptations op k
  | .date, op, k => dateAdaptations op k
  | .time, op, k => timeAdaptations op k
  | .interval, op, k => intervalAdaptations op k
  | _, _, _ => none

/-- The types whose class declares (or inherits) a `_DateAffinity`
expression-adaptation table. -/
def hasAdaptationTable : LType → Bool
  | .integer | .smallInteger | .bigInteger | .numeric | .float
  | .date | .datetime | .time | .interval => true
  | _ => false

/-- `NullType._adapt_expression` delegates to the right operand exactly
when the right operand is not itself a `NullType` and the operator is
commutative. -/
def delegates (a : LType) (op : Op) (b : LType) : Bool :=
  decide (a = .null) && !decide (b = .null) && isCommutative op

/-- The `_adapt_expression` method of a non-`NullType` left operand:
`Concatenable` (the string types) turns `add` into `concat` against a
concatenable or null affinity and otherwise keeps its own type;
`_DateAffinity` types look `(op, affinity)` up in their table with
`NULLTYPE` as default; `_Binary` uses the `TypeEngine` default,
returning itself. -/
def adaptExpressionBase (a : LType) (op : Op) (b : LType) : Op × LType :=
  match a with
  | .null => (op, .null)
  | .string | .text | .unicode =>
      if op = .add ∧ (typeAffinity b = .string ∨ typeAffinity b = .null) then
        (.concat, a)
      else
        (op, a)
  | .largeBinary => (op, a)
  | _ => (op, (expressionAdaptations a op (typeAffinity b)).getD .null)

/-- `_adapt_expression` dispatch: `NullType` returns itself unless it
delegates to the right operand with the operands swapped; every other
type uses its own class's method. -/
def adaptExpression (a : LType) (op : Op) (b : LType) : Op × LType :=
  if a = .null then
    if delegates a op b then adaptExpressionBase b op .null else (op, .null)
  else
    adaptExpressionBase a op b

/-- The inferred result type of `a op b`. -/
def resultType (a : LType) (op : Op) (b : LType) : LType :=
  (adaptExpression a op b).2

/-- The error taxonomy of the spec; `configurationError` models the
`exc.ArgumentError` raised by `Variant.with_variant` and the failures a
dialect's `type_descriptor` can raise during resolution. -/
inductive Err
  | configurationError
  | adapterError
deriving DecidableEq, Repr

/-- A `Variant` wrapper: a base (fallback) type plus a mapping from
dialect name to override type. -/
structure Variant where
  impl : LType
  mapping : List (String × LType)
deriving DecidableEq, Repr

/-- `Variant.with_variant`: raises `ArgumentError` when the dialect
name is already present; otherwise copies the mapping, adds the new
entry and returns a new `Variant` built on the same base.  The second
component is the state of the receiver after the call — the source
method never writes to `self` (it copies the mapping before the
insert), so the receiver is returned unchanged on both paths. -/
def withVariant (v : Variant) (t : LType) (dialectName : String) :
    Except Err Variant × Variant :=
  if (v.mapping.lookup dialectName).isSome then
    (.error .configurationError, v)
  else
    (.ok ⟨v.impl, (dialectName, t) :: v.mapping⟩, v)

/-- Timestamps and timedeltas are modelled as unbounded integer
microsecond counts; `Interval.epoch` is `datetime.utcfromtimestamp(0)`,
i.e. 1970-01-01 expressed in microseconds from `datetime.min`. -/
def epoch : Int := 62135596800000000

/-- `Interval.bind_processor`: adds the epoch to a non-null timedelta
and hands the result to the implementation's bind processor when the
implementation has one. -/
def intervalBindProcessor (implProcessor : Option (Option Int → Option Int)) :
    Option Int → Option Int :=
  match implProcessor with
  | some p => fun value => p (value.map (fun v => epoch + v))
  | none => fun value => value.map (fun v => epoch + v)

/-- `Interval.result_processor`: runs the implementation's result
processor when present, then subtracts the epoch from a non-null
result. -/
def intervalResultProcessor (implProcessor : Option (Option Int → Option Int)) :
    Option Int → Option Int :=
  match implProcessor with
  | some p => fun value => (p value).map (fun v => v - epoch)
  | none => fun value => value.map (fun v => v - epoch)

/-- A pickleable application object: a reference identity (Python
`id`) plus its structural contents. -/
structure PObj where
  ref : Nat
  data : List Nat
deriving DecidableEq, Repr

/-- Python structural equality (`==`) on the container objects held by
a `PickleType` column compares contents, not identity. -/
def pobjEq (x y : PObj) : Bool :=
  decide (x.data = y.data)

/-- A `PickleType` instance: serialization protocol, mutability flag,
optional caller-supplied comparator, and the pickler's `dumps`/`loads`
pair. -/
structure PickleType where
  protocol : Nat
  mutable : Bool
  comparator : Option (PObj → PObj → Bool)
  dumps : PObj → Nat → List Nat
  loads : List Nat → PObj

/-- `PickleType.bind_processor`: serializes a non-null value with
`dumps(value, protocol)` and hands the result to the implementation's
bind processor when the implementation has one. -/
def pickleBindProcessor (pt : PickleType)
    (implProcessor : Option (Option (List Nat) → Option (List Nat))) :
    Option PObj → Option (List Nat) :=
  match implProcessor with
  | some p => fun value => p (value.map (fun v => pt.dumps v pt.protocol))
  | none => fun value => value.map (fun v => pt.dumps v pt.protocol)

/-- `PickleType.result_processor`: runs the implementation's result
processor when present, returns null unchanged, and deserializes a
non-null storage value with `loads`. -/
def pickleResultProcessor (pt : PickleType)
    (implProcessor : Option (Option (List Nat) → Option (List Nat))) :
    Option (List Nat) → Option PObj :=
  match implProcessor with
  | some p => fun value => (p value).map pt.loads
  | none => fun value => value.map pt.loads

/-- `PickleType.copy_value`: a mutable pickle type snapshots a value by
a serialize-then-deserialize round trip; an immutable one returns the
same reference. -/
def pickleCopyValue (pt : PickleType) (value : PObj) : PObj :=
  if pt.mutable then pt.loads (pt.dumps value pt.protocol) else value

/-- `PickleType.compare_values`: the caller-supplied comparator when
one is configured, Python `==` otherwise. -/
def pickleCompareValues (pt : PickleType) (x y : PObj) : Bool :=
  match pt.comparator with
  | some c => c x y
  | none => pobjEq x y

/-- `_Binary.bind_processor`: wraps a non-null value with the driver's
`Binary` callable and passes null through. -/
def binaryBindProcessor (dbapiBinary : List Nat → List Nat) :
    Option (List Nat) → Option (List Nat) :=
  fun value => value.map dbapiBinary

/-- A dialect-specific implementation as stored in the resolution
cache, tracked up to Python object identity: the logical type object
itself, the fresh copy produced by `adapt`, or some other distinct
object. -/
inductive Impl
  | selfObj
  | adaptedCopy
  | distinct (i : Nat)
deriving DecidableEq, Repr

/-- `TypeEngine._dialect_info` over an explicit per-dialect memo table
keyed by the identity of the logical type instance: a cache hit returns
the stored entry; on a miss the dialect's `type_descriptor` is
consulted (a raise leaves the cache untouched); when the dialect
returns the very same object, `adapt` manufactures a fresh copy
(`util.constructor_copy` builds a new instance, modelled from the
spec's "distinct concrete implementation"), and only then is the entry
stored. -/
def dialectInfo (typeDescriptor : Nat → Except Err Impl) (t : Nat)
    (memos : List (Nat × Impl)) : Except Err Impl × List (Nat × Impl) :=
  match memos.lookup t with
  | some d => (.ok d, memos)
  | none =>
      match typeDescriptor t with
      | .error e => (.error e, memos)
      | .ok impl =>
          let impl' := if impl = .selfObj then .adaptedCopy else impl
          (.ok impl', (t, impl') :: memos)

/-- C1: decoding an encoded value round-trips for the Interval codec:
with the generic `DateTime` implementation (no impl processors) the
result processor undoes the bind processor on every value, and the same
holds whenever the implementation's own processors round-trip. -/
theorem interval_roundtrip :
    (∀ v : Option Int,
      intervalResultProcessor none (intervalBindProcessor none v) = v) ∧
    (∀ bp rp, (∀ d, rp (bp d) = d) →
      ∀ v : Option Int,
        intervalResultProcessor (some rp) (intervalBindProcessor (some bp) v) = v) := by
  constructor
  · intro v
    cases v <;> simp [intervalBindProcessor, intervalResultProcessor]
  · intro bp rp h v
    simp only [intervalBindProcessor, intervalResultProcessor]
    rw [h]
    cases v <;> simp

/-- Witness for C1 at a concrete timedelta and identity impl
processors. -/
theorem interval_roundtrip_witness :
    intervalResultProcessor (some id) (intervalBindProcessor (some id) (some 42)) =
      some 42 :=
  interval_roundtrip.2 id id (fun _ => rfl) (some 42)

/-- C2: every bind/result processor embedded from the source maps the
null sentinel to the null sentinel, and the value transform (driver
`Binary` wrapping, pickling, epoch shift), being universally
quantified, is never invoked on it. -/
theorem null_passthrough :
    (∀ f, binaryBindProcessor f none = none) ∧
    (∀ pt : PickleType, pickleBindProcessor pt none none = none) ∧
    (∀ (pt : PickleType) p, p none = none →
      pickleBindProcessor pt (some p) none = none) ∧
    (∀ pt : PickleType, pickleResultProcessor pt none none = none) ∧
    (∀ (pt : PickleType) p, p none = none →
      pickleResultProcessor pt (some p) none = none) ∧
    (intervalBindProcessor none none = none) ∧
    (∀ p, p none = none → intervalBindProcessor (some p) none = none) ∧
    (intervalResultProcessor none none = none) ∧
    (∀ p, p none = none → intervalResultProcessor (some p) none = none) := by
  refine ⟨fun f => rfl, fun pt => rfl, fun pt p h => ?_, fun pt => rfl,
      fun pt p h => ?_, rfl, fun p h => ?_, rfl, fun p h => ?_⟩ <;>
    simp [pickleBindProcessor, pickleResultProcessor,
      intervalBindProcessor, intervalResultProcessor, h]

/-- Witness for C2 with identity driver processors. -/
theorem null_passthrough_witness :
    binaryBindProcessor id none = none ∧
    intervalBindProcessor (some id) none = none :=
  ⟨null_passthrough.1 id, null_passthrough.2.2.2.2.2.2.1 id rfl⟩

/-- C3: adding a dialect key already present in a Variant's mapping
fails with the configuration error and leaves the receiving Variant
(base type and mapping) unchanged. -/
theorem variant_duplicate_key (v : Variant) (t : LType) (k : String)
    (h : (v.mapping.lookup k).isSome = true) :
    withVariant v t k = (.error .configurationError, v) := by
  simp [withVariant, h]

/-- Witness for C3 on a concrete Variant with a duplicate key. -/
theorem variant_duplicate_key_witness :
    withVariant ⟨.string, [("mysql", .text)]⟩ .unicode "mysql" =
      (.error .configurationError, ⟨.string, [("mysql", .text)]⟩) :=
  variant_duplicate_key ⟨.string, [("mysql", .text)]⟩ .unicode "mysql" rfl

/-- C4 counterexample: `mul` is commutative, `Interval` has no entry
for `mul`/affinity(`Integer`) while `Integer` has one for
`mul`/affinity(`Interval`), yet inference is not retried with swapped
operands: `resultType(Interval, mul, Integer)` is the null type while
`resultType(Integer, mul, Interval)` is `Interval`. -/
theorem commutative_symmetry_cex :
    isCommutative .mul = true ∧
    expressionAdaptations .interval .mul (typeAffinity .integer) = none ∧
    expressionAdaptations .integer .mul (typeAffinity .interval) = some .interval ∧
    resultType .interval .mul .integer = .null ∧
    resultType .integer .mul .interval = .interval ∧
    resultType .interval .mul .integer ≠ resultType .integer .mul .interval := by
  decide

/-- C4 amended: the commutative swap is performed only when the left
type is the null type; there, for every commutative operator,
`resultType(Null, op, B) = resultType(B, op, Null)`. -/
theorem null_commutative_symmetry :
    ∀ (op : Op) (b : LType), isCommutative op = true →
      resultType .null op b = resultType b op .null := by
  decide

/-- Witness for the amended C4 at `add`/`Integer`. -/
theorem null_commutative_symmetry_witness :
    resultType .null .add .integer = resultType .integer .add .null :=
  null_commutative_symmetry .add .integer rfl

/-- C5: for every left type with an adaptation table, inference looks
up `(op, affinity(right))` in that table; an absent entry yields the
null type and a present entry is returned as the result. -/
theorem table_lookup_inference :
    ∀ (a : LType), hasAdaptationTable a = true →
      ∀ (op : Op) (b : LType),
        (expressionAdaptations a op (typeAffinity b) = none →
          resultType a op b = .null) ∧
        (∀ r, expressionAdaptations a op (typeAffinity b) = some r →
          resultType a op b = r) := by
  decide

/-- Witness for C5: `Date` has no `mul` entry, so the result is the
null type. -/
theorem table_lookup_inference_witness :
    resultType .date .mul .integer = .null :=
  (table_lookup_inference .date rfl .mul .integer).1 rfl

/-- C6: date arithmetic inference: `Date - Date = Integer` and
`Date - Interval = DateTime`. -/
theorem date_arithmetic_inference :
    resultType .date .sub .date = .integer ∧
    resultType .date .sub .interval = .datetime := by
  decide

/-- C7: a failed resolution stores nothing in the per-dialect cache,
and a subsequent resolution of the same key with a working descriptor
succeeds. -/
theorem resolution_failure_atomic
    (td₁ td₂ : Nat → Except Err Impl) (t : Nat)
    (memos : List (Nat × Impl)) (e : Err) (i : Impl)
    (hmiss : memos.lookup t = none)
    (hfail : td₁ t = .error e) (hok : td₂ t = .ok i) :
    dialectInfo td₁ t memos = (.error e, memos) ∧
    (dialectInfo td₂ t memos).1 =
      .ok (if i = .selfObj then .adaptedCopy else i) := by
  constructor
  · simp [dialectInfo, hmiss, hfail]
  · simp [dialectInfo, hmiss, hok]

/-- Witness for C7 on an empty cache, a failing and a working
descriptor. -/
theorem resolution_failure_atomic_witness :
    dialectInfo (fun _ => .error .configurationError) 0 [] =
      (.error .configurationError, []) ∧
    (dialectInfo (fun _ => .ok (.distinct 7)) 0 []).1 = .ok (.distinct 7) :=
  resolution_failure_atomic (fun _ => .error .configurationError)
    (fun _ => .ok (.distinct 7)) 0 [] .configurationError (.distinct 7)
    rfl rfl rfl

/-- C8: a successful resolution never caches or returns the logical
type object itself: when the dialect hands back the identical object, a
fresh adapted copy is substituted before the entry is stored. -/
theorem resolution_not_self
    (td : Nat → Except Err Impl) (t : Nat)
    (memos c' : List (Nat × Impl)) (impl : Impl)
    (hmiss : memos.lookup t = none)
    (h : dialectInfo td t memos = (.ok impl, c')) :
    impl ≠ .selfObj ∧ c'.lookup t = some impl := by
  unfold dialectInfo at h
  rw [hmiss] at h
  cases htd : td t with
  | error e =>
      rw [htd] at h
      simp at h
  | ok i =>
      rw [htd] at h
      rw [Prod.mk.injEq] at h
      obtain ⟨h1, h2⟩ := h
      injection h1 with h1
      subst h2
      constructor
      · rw [← h1]
        by_cases hi : i = .selfObj <;> simp [hi]
      · rw [← h1]
        simp [List.lookup]

/-- Witness for C8: a descriptor that returns the object itself ends
with the adapted copy cached. -/
theorem resolution_not_self_witness :
    Impl.adaptedCopy ≠ Impl.selfObj ∧
    List.lookup 1 [(1, Impl.adaptedCopy)] = some Impl.adaptedCopy :=
  resolution_not_self (fun _ => .ok .selfObj) 1 [] [(1, .adaptedCopy)]
    .adaptedCopy rfl rfl

/-- C9: for a mutable pickle codec whose pickler round-trips contents
but allocates a fresh object, `bind` serializes with the configured
protocol, `copy_value` is the serialize-then-deserialize round trip
producing a non-identical but `compare_values`-equal object, and
`compare_values` uses the caller-supplied comparator when present and
structural equality otherwise. -/
theorem pickle_mutable_semantics (pt : PickleType) (v : PObj)
    (hm : pt.mutable = true)
    (hrt : (pt.loads (pt.dumps v pt.protocol)).data = v.data)
    (hfresh : (pt.loads (pt.dumps v pt.protocol)).ref ≠ v.ref) :
    pickleBindProcessor pt none (some v) = some (pt.dumps v pt.protocol) ∧
    pickleCopyValue pt v = pt.loads (pt.dumps v pt.protocol) ∧
    pickleCopyValue pt v ≠ v ∧
    (pt.comparator = none →
      pickleCompareValues pt (pickleCopyValue pt v) v = true) ∧
    (∀ c, pt.comparator = some c →
      pickleCompareValues pt (pickleCopyValue pt v) v =
        c (pickleCopyValue pt v) v) := by
  have hcopy : pickleCopyValue pt v = pt.loads (pt.dumps v pt.protocol) := by
    simp [pickleCopyValue, hm]
  refine ⟨rfl, hcopy, ?_, ?_, ?_⟩
  · intro he
    exact hfresh (congrArg PObj.ref (hcopy ▸ he))
  · intro hc
    simp [pickleCompareValues, hc, pobjEq, hcopy, hrt]
  · intro c hc
    simp [pickleCompareValues, hc]

/-- Witness for C9 with a concrete pickler that prepends a fresh
reference to the serialized contents. -/
theorem pickle_mutable_semantics_witness :
    pickleCopyValue
        ⟨2, true, none, fun v _ => (v.ref + 1) :: v.data,
          fun bs => ⟨bs.headD 0, bs.drop 1⟩⟩ ⟨5, [1, 2, 3]⟩ ≠ ⟨5, [1, 2, 3]⟩ ∧
    pickleCompareValues
        ⟨2, true, none, fun v _ => (v.ref + 1) :: v.data,
          fun bs => ⟨bs.headD 0, bs.drop 1⟩⟩
        (pickleCopyValue
          ⟨2, true, none, fun v _ => (v.ref + 1) :: v.data,
            fun bs => ⟨bs.headD 0, bs.drop 1⟩⟩ ⟨5, [1, 2, 3]⟩)
        ⟨5, [1, 2, 3]⟩ = true := by
  have h := pickle_mutable_semantics
      ⟨2, true, none, fun v _ => (v.ref + 1) :: v.data,
        fun bs => ⟨bs.headD 0, bs.drop 1⟩⟩ ⟨5, [1, 2, 3]⟩ rfl rfl (by decide)
  exact ⟨h.2.2.1, h.2.2.2.1 rfl⟩

/-- C10: inference with the null type on both sides returns the null
type directly, and the delegated (swapped) call can itself never
delegate again, so the operands are swapped at most once. -/
theorem null_inference_no_recursion :
    (∀ op, resultType .null op .null = .null) ∧
    (∀ (a : LType) (op : Op) (b : LType),
      delegates a op b = true → delegates b op a = false) := by
  exact ⟨by decide, by decide⟩

/-- Witness for C10: the null type delegates `add` to `Integer`, and
the swapped call does not delegate. -/
theorem null_inference_no_recursion_witness :
    delegates .integer .add .null = false :=
  null_inference_no_recursion.2 .null .add .integer rfl

end KittyTypes
